import Mathlib

/-!
# Formal model of the o1heap allocator (`src/o1heap/o1heap.c`)

A shallow embedding of the constant-time block-coalescing allocator on a
32-bit platform (`size_t` is 32 bits wide, `sizeof(void*) = 4`, hence
`O1HEAP_ALIGNMENT = sizeof(void*) * 4 = 16`).  Machine integers are
modelled as `Nat` with explicit reduction modulo `2^32` at the operations
where the C code can wrap.  Pointers are modelled as numeric addresses
(`Nat`), with `0` playing the role of `NULL`, exactly as C compares
pointers against `NULL`.  The arena memory is modelled at fragment
granularity: a finite association list from fragment addresses to the
fragment records the allocator itself reads and writes; memory the
allocator has never written reads as all-zero bytes.
-/

namespace O1heap

/-- `2^32`, the modulus of 32-bit `size_t` arithmetic. -/
def MOD32 : Nat := 2 ^ 32

/-- `2^64`, the modulus of the 64-bit `oom_count` counter. -/
def MOD64 : Nat := 2 ^ 64

/-- 32-bit wrapping addition (`size_t` `+`). -/
def add32 (a b : Nat) : Nat := (a + b) % MOD32

/-- 32-bit wrapping subtraction (`size_t` `-`), assuming `a < 2^32`. -/
def sub32 (a b : Nat) : Nat := (a + (MOD32 - b % MOD32)) % MOD32

/-- 32-bit bitwise complement (`~` on `size_t`), assuming `a < 2^32`. -/
def not32 (a : Nat) : Nat := (MOD32 - 1) - a

/-- `#define O1HEAP_ALIGNMENT (sizeof(void*) * 4U)`: 16 on the modelled platform. -/
def O1HEAP_ALIGNMENT : Nat := 16

/-- `#define FRAGMENT_SIZE_MIN (O1HEAP_ALIGNMENT * 2U)` -/
def FRAGMENT_SIZE_MIN : Nat := O1HEAP_ALIGNMENT * 2

/-- `#define FRAGMENT_SIZE_MAX ((SIZE_MAX >> 1U) + 1U)`: `2^31`. -/
def FRAGMENT_SIZE_MAX : Nat := 2 ^ 31

/-- `#define NUM_BINS_MAX (sizeof(size_t) * 8U)`: 32 bins on a 32-bit platform. -/
def NUM_BINS_MAX : Nat := 32

/-- `sizeof(O1HeapInstance)` on the modelled ILP32 platform:
bins `32 * 4 = 128` bytes, `nonempty_bin_mask` 4, two hook pointers 8,
4 bytes padding to 8-align the diagnostics' `uint64_t`, diagnostics
`4 * 4 + 8 = 24`; total `128 + 4 + 8 + 4 + 24 = 168`. -/
def SIZEOF_O1HEAP_INSTANCE : Nat := 168

/-- `sizeof(Fragment*)` on the modelled platform. -/
def SIZEOF_FRAGMENT_PTR : Nat := 4

/-- `isPowerOf2`: true iff `(x & (x - 1U)) == 0U` (zero counts as a power of two).
The `x - 1U` is 32-bit wrapping, so `isPowerOf2 0 = true` exactly as in C. -/
def isPowerOf2 (x : Nat) : Bool := Nat.land x (sub32 x 1) == 0

/-- The loop body of `log2Floor`, with explicit fuel.  The C loop
`while (tmp > 1) { tmp >>= 1; y++; }` runs at most 31 times for a 32-bit
`size_t`; fuel 64 is strictly more than enough for every argument `< 2^64`. -/
def log2FloorAux : Nat → Nat → Nat
  | 0, _ => 0
  | fuel + 1, x => if 1 < x then log2FloorAux fuel (x / 2) + 1 else 0

/-- `log2Floor`: position of the highest set bit; 0 for inputs 0 and 1. -/
def log2Floor (x : Nat) : Nat := log2FloorAux 64 x

/-- `log2Ceil`: `log2Floor(x) + (isPowerOf2(x) ? 0 : 1)`. -/
def log2Ceil (x : Nat) : Nat := log2Floor x + (if isPowerOf2 x then 0 else 1)

/-- `pow2`: `((size_t)1U) << power`.  A shift by 32 or more is undefined
behaviour in C; the model reduces modulo `2^32`, and the reachable call
sites keep the exponent below 32 (see the overflow theorems). -/
def pow2 (power : Nat) : Nat := (2 ^ power) % MOD32

/-- `FragmentHeader`: physical-list links, fragment size and the used flag. -/
structure FragmentHeader where
  next : Nat
  prev : Nat
  size : Nat
  used : Bool
deriving DecidableEq, Repr

/-- `Fragment`: the header plus the free-list links that live in the
allocatable space while the fragment is free. -/
structure Fragment where
  header : FragmentHeader
  next_free : Nat
  prev_free : Nat
deriving DecidableEq, Repr

/-- Memory never written by the allocator reads as all-zero bytes. -/
def Fragment.null : Fragment := ⟨⟨0, 0, 0, false⟩, 0, 0⟩

/-- The arena memory at fragment granularity: fragment address ↦ fragment. -/
abbrev Mem : Type := List (Nat × Fragment)

/-- Read the fragment at an address (all-zero if never written). -/
def readFrag : Mem → Nat → Fragment
  | [], _ => Fragment.null
  | kv :: rest, a => if kv.1 = a then kv.2 else readFrag rest a

/-- Write the whole fragment record at an address. -/
def writeFrag : Mem → Nat → Fragment → Mem
  | [], a, f => [(a, f)]
  | kv :: rest, a, f => if kv.1 = a then (a, f) :: rest else kv :: writeFrag rest a f

/-- `p->header.next = v` -/
def setNext (m : Mem) (a v : Nat) : Mem :=
  writeFrag m a { readFrag m a with header := { (readFrag m a).header with next := v } }

/-- `p->header.prev = v` -/
def setPrev (m : Mem) (a v : Nat) : Mem :=
  writeFrag m a { readFrag m a with header := { (readFrag m a).header with prev := v } }

/-- `p->header.size = v` -/
def setSize (m : Mem) (a v : Nat) : Mem :=
  writeFrag m a { readFrag m a with header := { (readFrag m a).header with size := v } }

/-- `p->header.used = v` -/
def setUsed (m : Mem) (a : Nat) (v : Bool) : Mem :=
  writeFrag m a { readFrag m a with header := { (readFrag m a).header with used := v } }

/-- `p->next_free = v` -/
def setNextFree (m : Mem) (a v : Nat) : Mem :=
  writeFrag m a { readFrag m a with next_free := v }

/-- `p->prev_free = v` -/
def setPrevFree (m : Mem) (a v : Nat) : Mem :=
  writeFrag m a { readFrag m a with prev_free := v }

/-- `O1HeapDiagnostics` (all `size_t` except the 64-bit `oom_count`). -/
structure O1HeapDiagnostics where
  capacity : Nat
  allocated : Nat
  peak_allocated : Nat
  peak_request_size : Nat
  oom_count : Nat
deriving DecidableEq, Repr

/-- `O1HeapInstance`.  `addr` is the numeric address at which the instance
header itself lives (the C struct's own address, used by `audit` for its
range check).  The two hook fields record whether a callback was supplied. -/
structure O1HeapInstance where
  addr : Nat
  bins : List Nat
  nonempty_bin_mask : Nat
  critical_section_enter : Bool
  critical_section_leave : Bool
  diagnostics : O1HeapDiagnostics
  mem : Mem
deriving DecidableEq, Repr

/-- `handle->bins[i]` (reads as `NULL` out of range; never happens in the code). -/
def getBin (bins : List Nat) (i : Nat) : Nat := bins.getD i 0

/-- `rebin`: add a block to the front of its bin list and set the mask bit. -/
def rebin (s : O1HeapInstance) (fragment : Nat) : O1HeapInstance :=
  let idx := log2Floor ((readFrag s.mem fragment).header.size / FRAGMENT_SIZE_MIN)
  let head := getBin s.bins idx
  -- fragment->next_free = handle->bins[idx];
  let m1 := setNextFree s.mem fragment head
  -- fragment->prev_free = NULL;
  let m2 := setPrevFree m1 fragment 0
  -- if (handle->bins[idx] != NULL) { handle->bins[idx]->prev_free = fragment; }
  let m3 := if head ≠ 0 then setPrevFree m2 head fragment else m2
  -- handle->bins[idx] = fragment;  handle->nonempty_bin_mask |= pow2(idx);
  { s with
    mem := m3
    bins := s.bins.set idx fragment
    nonempty_bin_mask := Nat.lor s.nonempty_bin_mask (pow2 idx) }

/-- `unbin`: remove a block from its bin list, fixing head and mask. -/
def unbin (s : O1HeapInstance) (fragment : Nat) : O1HeapInstance :=
  let idx := log2Floor ((readFrag s.mem fragment).header.size / FRAGMENT_SIZE_MIN)
  -- if (fragment->next_free != NULL) { fragment->next_free->prev_free = fragment->prev_free; }
  let nf0 := (readFrag s.mem fragment).next_free
  let m1 := if nf0 ≠ 0 then setPrevFree s.mem nf0 (readFrag s.mem fragment).prev_free else s.mem
  -- if (fragment->prev_free != NULL) { fragment->prev_free->next_free = fragment->next_free; }
  let pf1 := (readFrag m1 fragment).prev_free
  let m2 := if pf1 ≠ 0 then setNextFree m1 pf1 (readFrag m1 fragment).next_free else m1
  -- if (handle->bins[idx] == fragment) { bins[idx] = fragment->next_free; maybe clear mask bit }
  if getBin s.bins idx = fragment then
    let newHead := (readFrag m2 fragment).next_free
    { s with
      mem := m2
      bins := s.bins.set idx newHead
      nonempty_bin_mask :=
        if newHead = 0 then Nat.land s.nonempty_bin_mask (not32 (pow2 idx))
        else s.nonempty_bin_mask }
  else { s with mem := m2 }

/-- `interlink(left, right)`: link two fragments, tolerating `NULL` on either side. -/
def interlink (m : Mem) (left right : Nat) : Mem :=
  let m1 := if left ≠ 0 then setNext m left right else m
  if right ≠ 0 then setPrev m1 right left else m1

/-- `audit(handle, pointer)`: the heuristic pointer validity check, translated
verbatim — including the final `(frag->header.prev == frag)` comparison that
the source performs where its comment promises sibling interlink consistency. -/
def audit (s : O1HeapInstance) (pointer : Nat) : Bool :=
  if pointer ≠ 0 then
    let heap_range_bottom := add32 s.addr SIZEOF_O1HEAP_INSTANCE
    let heap_range_top := add32 heap_range_bottom s.diagnostics.capacity
    let fragment_address := sub32 pointer O1HEAP_ALIGNMENT
    let pointer_is_valid :=
      fragment_address % O1HEAP_ALIGNMENT == 0 &&
      heap_range_bottom ≤ fragment_address && fragment_address ≤ heap_range_top
    if pointer_is_valid then
      let frag := readFrag s.mem fragment_address
      frag.header.used && (frag.header.size ≤ s.diagnostics.capacity) &&
      (frag.header.size ≥ FRAGMENT_SIZE_MIN) && (frag.header.size % FRAGMENT_SIZE_MIN == 0) &&
      (frag.header.next % SIZEOF_FRAGMENT_PTR == 0) &&
      (frag.header.prev % SIZEOF_FRAGMENT_PTR == 0) &&
      (if frag.header.next == 0 then true
       else (readFrag s.mem frag.header.next).header.prev == fragment_address) &&
      (if frag.header.prev == 0 then true
       else frag.header.prev == fragment_address)
    else false
  else true

/-- A critical-section hook invocation observed during a public call. -/
inductive HookEv where
  | enter
  | leave
deriving DecidableEq, Repr

/-- Result of `o1heapAllocate`: new state, returned pointer (`none` = `NULL`),
and the sequence of hook invocations performed by the call. -/
structure AllocResult where
  state : O1HeapInstance
  out : Option Nat
  events : List HookEv
deriving DecidableEq, Repr

/-- The common tail of `o1heapAllocate`: update `peak_request_size`, count an
OOM when returning `NULL` for a nonzero request, and leave the critical
section.  The hook trace lists the `critical_section_enter` invocation (which
the source performs before the bin search) followed by `critical_section_leave`. -/
def allocFinish (s : O1HeapInstance) (amount : Nat) (out : Option Nat) : AllocResult :=
  let d := s.diagnostics
  let d1 := if d.peak_request_size < amount then { d with peak_request_size := amount } else d
  let d2 :=
    if out = none ∧ 0 < amount then { d1 with oom_count := (d1.oom_count + 1) % MOD64 }
    else d1
  { state := { s with diagnostics := d2 }
    out := out
    events :=
      (if s.critical_section_enter then [HookEv.enter] else []) ++
      (if s.critical_section_leave then [HookEv.leave] else []) }

/-- `const size_t fragment_size = pow2(log2Ceil(amount + O1HEAP_ALIGNMENT));` -/
def fragmentSizeOf (amount : Nat) : Nat := pow2 (log2Ceil (add32 amount O1HEAP_ALIGNMENT))

/-- `const uint8_t optimal_bin_index = log2Ceil(fragment_size / FRAGMENT_SIZE_MIN);` -/
def optimalBinIndex (amount : Nat) : Nat := log2Ceil (fragmentSizeOf amount / FRAGMENT_SIZE_MIN)

/-- `const size_t candidate_bin_mask = ~(pow2(optimal_bin_index) - 1U);` -/
def candidateBinMask (amount : Nat) : Nat := not32 (sub32 (pow2 (optimalBinIndex amount)) 1)

/-- `const size_t suitable_bins = handle->nonempty_bin_mask & candidate_bin_mask;` -/
def suitableBins (s : O1HeapInstance) (amount : Nat) : Nat :=
  Nat.land s.nonempty_bin_mask (candidateBinMask amount)

/-- `const size_t smallest_bin_mask = suitable_bins & ~(suitable_bins - 1U);` -/
def smallestBinMask (s : O1HeapInstance) (amount : Nat) : Nat :=
  Nat.land (suitableBins s amount) (not32 (sub32 (suitableBins s amount) 1))

/-- `o1heapAllocate`, translated line by line from the source (the function's
local variables `fragment_size` … `smallest_bin_mask` are the named
definitions above). -/
def o1heapAllocate (s0 : O1HeapInstance) (amount : Nat) : AllocResult :=
  if 0 < amount ∧ amount ≤ sub32 s0.diagnostics.capacity O1HEAP_ALIGNMENT then
    let fragment_size := fragmentSizeOf amount
    if smallestBinMask s0 amount ≠ 0 then
      let bin_index := log2Floor (smallestBinMask s0 amount)
      let frag := getBin s0.bins bin_index
      let s1 := unbin s0 frag
      -- const size_t leftover = frag->header.size - fragment_size;
      let leftover := sub32 (readFrag s1.mem frag).header.size fragment_size
      -- frag->header.size = fragment_size;
      let s2 := { s1 with mem := setSize s1.mem frag fragment_size }
      let s3 :=
        if FRAGMENT_SIZE_MIN ≤ leftover then
          -- Fragment* const new_frag = (Fragment*)(((uint8_t*) frag) + leftover);
          let new_frag := add32 frag leftover
          let mA := setSize s2.mem new_frag leftover
          let mB := setUsed mA new_frag false
          let mC := interlink mB new_frag (readFrag mB frag).header.next
          let mD := interlink mC frag new_frag
          rebin { s2 with mem := mD } new_frag
        else s2
      let d := s3.diagnostics
      let allocated1 := add32 d.allocated fragment_size
      let peak1 := if d.peak_allocated < allocated1 then allocated1 else d.peak_allocated
      let s4 := { s3 with diagnostics := { d with allocated := allocated1, peak_allocated := peak1 } }
      -- frag->header.used = true;  out = frag + O1HEAP_ALIGNMENT
      let s5 := { s4 with mem := setUsed s4.mem frag true }
      allocFinish s5 amount (some (add32 frag O1HEAP_ALIGNMENT))
    else allocFinish s0 amount none
  else allocFinish s0 amount none

/-- `o1heapFree`, translated line by line from the source. -/
def o1heapFree (s0 : O1HeapInstance) (pointer : Nat) : O1HeapInstance × List HookEv :=
  let pointer_is_valid := audit s0 pointer
  if pointer_is_valid = true ∧ pointer ≠ 0 then
    let frag := sub32 pointer O1HEAP_ALIGNMENT
    -- frag->header.used = false;
    let m1 := setUsed s0.mem frag false
    -- handle->diagnostics.allocated -= frag->header.size;
    let d := s0.diagnostics
    let s1 := { s0 with
                mem := m1
                diagnostics := { d with allocated := sub32 d.allocated (readFrag m1 frag).header.size } }
    let prev := (readFrag s1.mem frag).header.prev
    let next := (readFrag s1.mem frag).header.next
    let join_left := prev ≠ 0 ∧ (readFrag s1.mem prev).header.used = false
    let join_right := next ≠ 0 ∧ (readFrag s1.mem next).header.used = false
    let s5 :=
      if join_left ∧ join_right then
        let s2 := unbin s1 prev
        let s3 := unbin s2 next
        -- prev->header.size += frag->header.size + next->header.size;
        let newSize := add32 (readFrag s3.mem prev).header.size
          (add32 (readFrag s3.mem frag).header.size (readFrag s3.mem next).header.size)
        let mA := setSize s3.mem prev newSize
        let mB := setSize mA frag 0
        let mC := setSize mB next 0
        let mD := interlink mC prev (readFrag mC next).header.next
        rebin { s3 with mem := mD } prev
      else if join_left then
        let s2 := unbin s1 prev
        let newSize := add32 (readFrag s2.mem prev).header.size (readFrag s2.mem frag).header.size
        let mA := setSize s2.mem prev newSize
        let mB := setSize mA frag 0
        let mC := interlink mB prev next
        rebin { s2 with mem := mC } prev
      else if join_right then
        let s2 := unbin s1 next
        let newSize := add32 (readFrag s2.mem frag).header.size (readFrag s2.mem next).header.size
        let mA := setSize s2.mem frag newSize
        let mB := setSize mA next 0
        let mC := interlink mB frag (readFrag mB next).header.next
        rebin { s2 with mem := mC } frag
      else rebin s1 frag
    (s5,
      (if s0.critical_section_enter then [HookEv.enter] else []) ++
      (if s0.critical_section_leave then [HookEv.leave] else []))
  else (s0, [])

/-- The arena-alignment loop at the top of `o1heapInit`:
`while ((base % ALIGNMENT != 0) && (size > 0) && (base != NULL)) { base++; size--; }`.
The loop runs at most 15 times; the fuel argument makes that explicit. -/
def alignLoop1 : Nat → Nat → Nat → Nat × Nat
  | 0, base, size => (base, size)
  | fuel + 1, base, size =>
    if base % O1HEAP_ALIGNMENT ≠ 0 ∧ 0 < size ∧ base ≠ 0 then
      alignLoop1 fuel (add32 base 1) (size - 1)
    else (base, size)

/-- The storage-alignment loop in the middle of `o1heapInit`:
`while (base % ALIGNMENT != 0) { base++; size--; }` (the decrement is a
wrapping `size_t` decrement; the source only asserts `size > 0`). -/
def alignLoop2 : Nat → Nat → Nat → Nat × Nat
  | 0, base, size => (base, size)
  | fuel + 1, base, size =>
    if base % O1HEAP_ALIGNMENT ≠ 0 then
      alignLoop2 fuel (add32 base 1) (sub32 size 1)
    else (base, size)

/-- The freshly initialized instance built by `o1heapInit` once the arena
has been aligned and truncated: instance header at `addr`, a single free
root fragment of size `capacity` at `frag`, inserted into its bin. -/
def initColdState (addr frag capacity : Nat) (e l : Bool) : O1HeapInstance :=
  rebin
    { addr := addr
      bins := List.replicate NUM_BINS_MAX 0
      nonempty_bin_mask := 0
      critical_section_enter := e
      critical_section_leave := l
      diagnostics := ⟨capacity, 0, 0, 0, 0⟩
      mem := [(frag, ⟨⟨0, 0, capacity, false⟩, 0, 0⟩)] }
    frag

/-- `o1heapInit`, translated from the source.  `base` is the numeric arena
address (`0` = `NULL`), `size` the arena byte count; the booleans record
whether the two critical-section hooks were supplied. -/
def o1heapInit (base size : Nat) (e l : Bool) : Option O1HeapInstance :=
  let (adjusted_base, adjusted_size) := alignLoop1 O1HEAP_ALIGNMENT base size
  if adjusted_base ≠ 0 ∧ SIZEOF_O1HEAP_INSTANCE + FRAGMENT_SIZE_MIN * 2 ≤ adjusted_size then
    let out_addr := adjusted_base
    let base2 := add32 adjusted_base SIZEOF_O1HEAP_INSTANCE
    let size2 := adjusted_size - SIZEOF_O1HEAP_INSTANCE
    let (base3, size3) := alignLoop2 O1HEAP_ALIGNMENT base2 size2
    -- if (adjusted_size > FRAGMENT_SIZE_MAX) { adjusted_size = FRAGMENT_SIZE_MAX; }
    let size4 := if FRAGMENT_SIZE_MAX < size3 then FRAGMENT_SIZE_MAX else size3
    -- while ((adjusted_size % FRAGMENT_SIZE_MIN) != 0) { adjusted_size--; }
    let size5 := size4 - size4 % FRAGMENT_SIZE_MIN
    some (initColdState out_addr base3 size5 e l)
  else none

/-! ## Concrete example states

`o1heapInit 16 296` yields an instance at address 16 whose single root
fragment lives at address 192 with capacity 96; `o1heapInit 16 496`
likewise yields capacity 320.  These states are used by the concrete
evaluation theorems below. -/

/-- The freshly initialized capacity-96 heap produced by `o1heapInit 16 296`. -/
def heap96 : O1HeapInstance := initColdState 16 192 96 false false

/-- `heap96` after two successful `o1heapAllocate _ 16` calls. -/
def heap96b : O1HeapInstance :=
  (o1heapAllocate (o1heapAllocate heap96 16).state 16).state

/-- The capacity-96 heap with both critical-section hooks supplied. -/
def heap96h : O1HeapInstance := initColdState 16 192 96 true true

/-- The freshly initialized capacity-320 heap produced by `o1heapInit 16 496`. -/
def heap320 : O1HeapInstance := initColdState 16 192 320 false false

/-- Trace step 1: `allocate 113` on the fresh capacity-320 heap. -/
def c4s1 : AllocResult := o1heapAllocate heap320 113

/-- Trace step 2: `allocate 17`. -/
def c4s2 : AllocResult := o1heapAllocate c4s1.state 17

/-- Trace step 3: `free` of the pointer returned by step 1. -/
def c4s3 : O1HeapInstance × List HookEv := o1heapFree c4s2.state 208

/-- Trace step 4: `allocate 49`. -/
def c4s4 : AllocResult := o1heapAllocate c4s3.1 49

/-- Trace step 5: `allocate 16`. -/
def c4s5 : AllocResult := o1heapAllocate c4s4.state 16

/-- Trace step 6: `allocate 17`. -/
def c4s6 : AllocResult := o1heapAllocate c4s5.state 17

/-- Trace step 7: `free` of the pointer returned by step 4. -/
def c4s7 : O1HeapInstance × List HookEv := o1heapFree c4s6.state 208

/-- Trace step 8: `allocate 17`. -/
def c4s8 : AllocResult := o1heapAllocate c4s7.1 17

/-! ## Basic lemmas about the fragment store -/

theorem readFrag_writeFrag_self (m : Mem) (a : Nat) (f : Fragment) :
    readFrag (writeFrag m a f) a = f := by
  induction m with
  | nil => simp [readFrag, writeFrag]
  | cons kv rest ih =>
    by_cases h : kv.1 = a
    · simp [readFrag, writeFrag, h]
    · simp [readFrag, writeFrag, h, ih]

theorem readFrag_writeFrag_ne (m : Mem) (a b : Nat) (f : Fragment) (h : b ≠ a) :
    readFrag (writeFrag m a f) b = readFrag m b := by
  have h2 : ¬(a = b) := fun hh => h hh.symm
  induction m with
  | nil => simp [readFrag, writeFrag, h2]
  | cons kv rest ih =>
    by_cases hk : kv.1 = a
    · subst hk
      simp [readFrag, writeFrag, h2]
    · simp only [writeFrag, if_neg hk, readFrag]
      split
      · rfl
      · exact ih

theorem used_setSize (m : Mem) (a v b : Nat) :
    (readFrag (setSize m a v) b).header.used = (readFrag m b).header.used := by
  by_cases h : b = a
  · subst h
    simp [setSize, readFrag_writeFrag_self]
  · simp [setSize, readFrag_writeFrag_ne _ _ _ _ h]

theorem used_setNext (m : Mem) (a v b : Nat) :
    (readFrag (setNext m a v) b).header.used = (readFrag m b).header.used := by
  by_cases h : b = a
  · subst h
    simp [setNext, readFrag_writeFrag_self]
  · simp [setNext, readFrag_writeFrag_ne _ _ _ _ h]

theorem used_setPrev (m : Mem) (a v b : Nat) :
    (readFrag (setPrev m a v) b).header.used = (readFrag m b).header.used := by
  by_cases h : b = a
  · subst h
    simp [setPrev, readFrag_writeFrag_self]
  · simp [setPrev, readFrag_writeFrag_ne _ _ _ _ h]

theorem used_setNextFree (m : Mem) (a v b : Nat) :
    (readFrag (setNextFree m a v) b).header.used = (readFrag m b).header.used := by
  by_cases h : b = a
  · subst h
    simp [setNextFree, readFrag_writeFrag_self]
  · simp [setNextFree, readFrag_writeFrag_ne _ _ _ _ h]

theorem used_setPrevFree (m : Mem) (a v b : Nat) :
    (readFrag (setPrevFree m a v) b).header.used = (readFrag m b).header.used := by
  by_cases h : b = a
  · subst h
    simp [setPrevFree, readFrag_writeFrag_self]
  · simp [setPrevFree, readFrag_writeFrag_ne _ _ _ _ h]

theorem used_setUsed (m : Mem) (a : Nat) (v : Bool) (b : Nat) :
    (readFrag (setUsed m a v) b).header.used = if b = a then v else (readFrag m b).header.used := by
  by_cases h : b = a
  · subst h
    simp [setUsed, readFrag_writeFrag_self]
  · simp [setUsed, readFrag_writeFrag_ne _ _ _ _ h, h]

theorem used_interlink (m : Mem) (l r b : Nat) :
    (readFrag (interlink m l r) b).header.used = (readFrag m b).header.used := by
  unfold interlink
  by_cases hl : l ≠ 0 <;> by_cases hr : r ≠ 0 <;>
    simp [hl, hr, used_setNext, used_setPrev]

theorem used_rebin (s : O1HeapInstance) (f b : Nat) :
    (readFrag (rebin s f).mem b).header.used = (readFrag s.mem b).header.used := by
  unfold rebin
  by_cases h : getBin s.bins (log2Floor ((readFrag s.mem f).header.size / FRAGMENT_SIZE_MIN)) ≠ 0 <;>
    simp [h, used_setNextFree, used_setPrevFree]

theorem used_unbin (s : O1HeapInstance) (f b : Nat) :
    (readFrag (unbin s f).mem b).header.used = (readFrag s.mem b).header.used := by
  unfold unbin
  by_cases h1 : (readFrag s.mem f).next_free ≠ 0 <;>
    by_cases h3 : getBin s.bins (log2Floor ((readFrag s.mem f).header.size / FRAGMENT_SIZE_MIN)) = f <;>
      simp [h1, h3, used_setNextFree, used_setPrevFree] <;>
        split <;> simp [used_setNextFree, used_setPrevFree]

/-! ## Arithmetic lemmas -/

theorem add32_of_lt {a b : Nat} (h : a + b < MOD32) : add32 a b = a + b := by
  unfold add32
  exact Nat.mod_eq_of_lt h

theorem sub32_of_le {a b : Nat} (hba : b ≤ a) (ha : a < MOD32) : sub32 a b = a - b := by
  unfold sub32
  have hb : b % MOD32 = b := Nat.mod_eq_of_lt (Nat.lt_of_le_of_lt hba ha)
  rw [hb]
  have h1 : a + (MOD32 - b) = (a - b) + MOD32 := by
    have : b ≤ MOD32 := Nat.le_of_lt (Nat.lt_of_le_of_lt hba ha)
    omega
  rw [h1, Nat.add_mod_right]
  exact Nat.mod_eq_of_lt (by omega)

theorem pow2_eq {k : Nat} (h : k < 32) : pow2 k = 2 ^ k := by
  unfold pow2 MOD32
  exact Nat.mod_eq_of_lt (Nat.pow_lt_pow_right Nat.one_lt_two h)

theorem log2FloorAux_le (fuel x m : Nat) (h : x ≤ 2 ^ m) : log2FloorAux fuel x ≤ m := by
  induction fuel generalizing x m with
  | zero => simp [log2FloorAux]
  | succ n ih =>
    unfold log2FloorAux
    split
    · rename_i hx
      cases m with
      | zero => omega
      | succ mm =>
        have hp : (2 : Nat) ^ (mm + 1) = 2 ^ mm * 2 := by ring
        have h2 : x / 2 ≤ 2 ^ mm := by omega
        exact Nat.succ_le_succ (ih (x / 2) mm h2)
    · exact Nat.zero_le m

theorem log2FloorAux_lt (fuel x m : Nat) (h : x < 2 ^ m) (hm : 0 < m) :
    log2FloorAux fuel x < m := by
  induction fuel generalizing x m with
  | zero => simpa [log2FloorAux] using hm
  | succ n ih =>
    unfold log2FloorAux
    split
    · rename_i hx
      cases m with
      | zero => omega
      | succ mm =>
        have hmm : 0 < mm := by
          rcases Nat.eq_zero_or_pos mm with h0 | h0
          · subst h0
            have : (2 : Nat) ^ (0 + 1) = 2 := by norm_num
            omega
          · exact h0
        have hp : (2 : Nat) ^ (mm + 1) = 2 ^ mm * 2 := by ring
        have h2 : x / 2 < 2 ^ mm := by omega
        exact Nat.succ_lt_succ (ih (x / 2) mm h2 hmm)
    · exact hm

theorem log2FloorAux_pow (fuel k : Nat) (h : k < fuel) : log2FloorAux fuel (2 ^ k) = k := by
  induction k generalizing fuel with
  | zero =>
    cases fuel with
    | zero => omega
    | succ n => simp [log2FloorAux]
  | succ kk ih =>
    cases fuel with
    | zero => omega
    | succ n =>
      unfold log2FloorAux
      have h1 : 1 < 2 ^ (kk + 1) := Nat.one_lt_two_pow_iff.mpr (by omega)
      rw [if_pos h1]
      have h2 : 2 ^ (kk + 1) / 2 = 2 ^ kk := by
        rw [pow_succ]
        exact Nat.mul_div_cancel _ (by omega)
      rw [h2, ih n (by omega)]

theorem log2Floor_pow {k : Nat} (h : k < 64) : log2Floor (2 ^ k) = k :=
  log2FloorAux_pow 64 k h

theorem land_pow_sub_one (k : Nat) : Nat.land (2 ^ k) (2 ^ k - 1) = 0 := by
  apply Nat.eq_of_testBit_eq
  intro i
  show ((2 ^ k) &&& (2 ^ k - 1)).testBit i = Nat.testBit 0 i
  rw [Nat.testBit_land, Nat.testBit_two_pow, Nat.testBit_two_pow_sub_one, Nat.zero_testBit]
  by_cases h : k = i
  · subst h
    simp
  · simp [h]

theorem land_two_pow_of_testBit {k y : Nat} (h : y.testBit k = true) :
    Nat.land (2 ^ k) y = 2 ^ k := by
  apply Nat.eq_of_testBit_eq
  intro i
  show ((2 ^ k) &&& y).testBit i = (2 ^ k).testBit i
  rw [Nat.testBit_land, Nat.testBit_two_pow]
  by_cases hik : k = i
  · subst hik
    simp [h]
  · simp [hik]

theorem testBit_pow_sub_pow {k : Nat} (h : k < 32) : (2 ^ 32 - 2 ^ k).testBit k = true := by
  have h1 : (2 : Nat) ^ 32 = 2 ^ k * 2 ^ (32 - k) := by
    rw [← pow_add]
    congr 1
    omega
  have h2 : (2 : Nat) ^ 32 - 2 ^ k = 2 ^ k * (2 ^ (32 - k) - 1) := by
    rw [h1, Nat.mul_sub, Nat.mul_one]
  have h3 : (2 ^ 32 - 2 ^ k) / 2 ^ k = 2 ^ (32 - k) - 1 := by
    rw [h2]
    exact Nat.mul_div_cancel_left _ (Nat.pos_pow_of_pos k (by omega))
  have h4 : (2 : Nat) ^ (32 - k) % 2 = 0 := by
    have : 32 - k = (32 - k - 1) + 1 := by omega
    rw [this, pow_succ]
    exact Nat.mul_mod_left _ 2
  rw [Nat.testBit_to_div_mod, h3]
  have h5 : (1 : Nat) ≤ 2 ^ (32 - k) := Nat.one_le_two_pow
  have h6 : ((2 : Nat) ^ (32 - k) - 1) % 2 = 1 := by omega
  simp [h6]

theorem sub32_one_pow {k : Nat} (h : k < 32) : sub32 (2 ^ k) 1 = 2 ^ k - 1 :=
  sub32_of_le (Nat.one_le_two_pow) (by
    unfold MOD32
    exact Nat.pow_lt_pow_right Nat.one_lt_two h)

theorem not32_pow_sub_one {k : Nat} (h : k < 32) : not32 (2 ^ k - 1) = 2 ^ 32 - 2 ^ k := by
  unfold not32 MOD32
  have h1 : (2 : Nat) ^ k ≤ 2 ^ 32 := Nat.pow_le_pow_right (by omega) (by omega)
  have h2 : (1 : Nat) ≤ 2 ^ k := Nat.one_le_two_pow
  omega

theorem isPowerOf2_pow {k : Nat} (h : k < 32) : isPowerOf2 (2 ^ k) = true := by
  unfold isPowerOf2
  rw [sub32_one_pow h, land_pow_sub_one]
  rfl

theorem log2Ceil_pow {k : Nat} (h : k < 32) : log2Ceil (2 ^ k) = k := by
  unfold log2Ceil
  rw [isPowerOf2_pow h, log2Floor_pow (by omega)]
  simp

theorem log2Ceil_le_31 {x : Nat} (hx : x ≤ 2 ^ 31) : log2Ceil x ≤ 31 := by
  rcases Nat.lt_or_ge x (2 ^ 31) with hlt | hge
  · have hf : log2Floor x < 31 := log2FloorAux_lt 64 x 31 hlt (by omega)
    unfold log2Ceil
    split <;> omega
  · have hx31 : x = 2 ^ 31 := by omega
    subst hx31
    rw [log2Ceil_pow (by omega)]

/-! ## Structural lemmas about the operations -/

theorem getBin_replicate (n i : Nat) : getBin (List.replicate n 0) i = 0 := by
  unfold getBin
  induction n generalizing i with
  | zero => simp
  | succ m ih => cases i <;> simp [List.replicate, ih]

theorem getBin_set_self (l : List Nat) (i v : Nat) (h : i < l.length) :
    getBin (l.set i v) i = v := by
  unfold getBin
  induction l generalizing i with
  | nil => simp at h
  | cons a t ih =>
    cases i with
    | zero => simp
    | succ j =>
      simp only [List.set, List.getD_cons_succ]
      exact ih j (by simpa using h)

theorem unbin_enter (s : O1HeapInstance) (f : Nat) :
    (unbin s f).critical_section_enter = s.critical_section_enter := by
  unfold unbin
  dsimp only []
  split <;> rfl

theorem unbin_leave (s : O1HeapInstance) (f : Nat) :
    (unbin s f).critical_section_leave = s.critical_section_leave := by
  unfold unbin
  dsimp only []
  split <;> rfl

theorem rebin_enter (s : O1HeapInstance) (f : Nat) :
    (rebin s f).critical_section_enter = s.critical_section_enter := rfl

theorem rebin_leave (s : O1HeapInstance) (f : Nat) :
    (rebin s f).critical_section_leave = s.critical_section_leave := rfl

/-- The returned pointer of `o1heapAllocate`, isolated from the state updates. -/
theorem o1heapAllocate_out (s : O1HeapInstance) (amount : Nat) :
    (o1heapAllocate s amount).out =
      if 0 < amount ∧ amount ≤ sub32 s.diagnostics.capacity O1HEAP_ALIGNMENT then
        if smallestBinMask s amount ≠ 0 then
          some (add32 (getBin s.bins (log2Floor (smallestBinMask s amount))) O1HEAP_ALIGNMENT)
        else none
      else none := by
  unfold o1heapAllocate
  split
  · split <;> simp [allocFinish]
  · simp [allocFinish]

/-- `o1heapAllocate` either succeeds, handing a state whose hook fields are
those of the input to the common tail, or fails leaving the state untouched
until the common tail. -/
theorem o1heapAllocate_shape (s : O1HeapInstance) (amount : Nat) :
    (∃ t ptr, o1heapAllocate s amount = allocFinish t amount (some ptr) ∧
      t.critical_section_enter = s.critical_section_enter ∧
      t.critical_section_leave = s.critical_section_leave) ∨
    o1heapAllocate s amount = allocFinish s amount none := by
  unfold o1heapAllocate
  split
  · split
    · refine Or.inl ⟨_, _, rfl, ?_, ?_⟩ <;>
        · simp only []
          split <;> simp [rebin_enter, rebin_leave, unbin_enter, unbin_leave]
    · exact Or.inr rfl
  · exact Or.inr rfl

/-- The state produced by `allocFinish` differs from its input only in
`peak_request_size` and `oom_count`. -/
theorem allocFinish_state (s : O1HeapInstance) (amount : Nat) (out : Option Nat) :
    ∃ pr oc, (allocFinish s amount out).state =
      { s with diagnostics := { s.diagnostics with
          peak_request_size := pr, oom_count := oc } } := by
  unfold allocFinish
  dsimp only []
  split_ifs <;> exact ⟨_, _, rfl⟩

/-- The no-op branch of `o1heapFree`. -/
theorem o1heapFree_of_guard_false (s : O1HeapInstance) (p : Nat)
    (h : ¬(audit s p = true ∧ p ≠ 0)) : o1heapFree s p = (s, []) := by
  unfold o1heapFree
  exact if_neg h

/-- `audit` rejects any pointer whose purported fragment header has the
`used` flag cleared. -/
theorem audit_false_of_used_false (s : O1HeapInstance) (p : Nat) (hp : p ≠ 0)
    (h : (readFrag s.mem (sub32 p O1HEAP_ALIGNMENT)).header.used = false) :
    audit s p = false := by
  unfold audit
  rw [if_pos hp]
  dsimp only []
  split
  · simp [h]
  · rfl

/-- After the acting branch of `o1heapFree`, the freed fragment's header has
`used = false` (the body clears it first and nothing sets it again). -/
theorem o1heapFree_used_false (s : O1HeapInstance) (p : Nat)
    (hv : audit s p = true) (hp : p ≠ 0) :
    (readFrag (o1heapFree s p).1.mem (sub32 p O1HEAP_ALIGNMENT)).header.used = false := by
  unfold o1heapFree
  rw [if_pos ⟨hv, hp⟩]
  simp only []
  split
  · simp [used_rebin, used_interlink, used_setSize, used_unbin, used_setUsed]
  · split
    · simp [used_rebin, used_interlink, used_setSize, used_unbin, used_setUsed]
    · split
      · simp [used_rebin, used_interlink, used_setSize, used_unbin, used_setUsed]
      · simp [used_rebin, used_setUsed]

/-- The hook trace of `o1heapFree`, isolated from the state updates. -/
theorem o1heapFree_events (s : O1HeapInstance) (p : Nat) :
    (o1heapFree s p).2 =
      (if audit s p = true ∧ p ≠ 0 then
        (if s.critical_section_enter then [HookEv.enter] else []) ++
          (if s.critical_section_leave then [HookEv.leave] else [])
      else []) := by
  unfold o1heapFree
  by_cases hcond : audit s p = true ∧ p ≠ 0
  · rw [if_pos hcond, if_pos hcond]
  · rw [if_neg hcond, if_neg hcond]

theorem initColdState_diagnostics (a f c : Nat) (e l : Bool) :
    (initColdState a f c e l).diagnostics = ⟨c, 0, 0, 0, 0⟩ := rfl

theorem initColdState_mask (a f c : Nat) (e l : Bool) :
    (initColdState a f c e l).nonempty_bin_mask =
      pow2 (log2Floor (c / FRAGMENT_SIZE_MIN)) := by
  have hlor : Nat.lor 0 (pow2 (log2Floor (c / FRAGMENT_SIZE_MIN))) =
      pow2 (log2Floor (c / FRAGMENT_SIZE_MIN)) := Nat.zero_or _
  simp [initColdState, rebin, readFrag, hlor]

theorem initColdState_bins (a f c : Nat) (e l : Bool) :
    (initColdState a f c e l).bins =
      (List.replicate NUM_BINS_MAX 0).set (log2Floor (c / FRAGMENT_SIZE_MIN)) f := by
  simp [initColdState, rebin, readFrag]

/-! ## Claim theorems -/

/-- C9: for every heap state, `allocate(0)` returns `NULL` and leaves the
entire heap state — fragments, bins, mask and all diagnostics, in particular
`oom_count` — unchanged. -/
theorem allocate_zero_is_noop (s : O1HeapInstance) :
    (o1heapAllocate s 0).state = s ∧ (o1heapAllocate s 0).out = none := by
  have h0 : ¬(0 < 0 ∧ (0 : Nat) ≤ sub32 s.diagnostics.capacity O1HEAP_ALIGNMENT) := by omega
  unfold o1heapAllocate
  rw [if_neg h0]
  unfold allocFinish
  dsimp only []
  rw [if_neg (by omega : ¬s.diagnostics.peak_request_size < 0),
    if_neg (by simp : ¬((none : Option Nat) = none ∧ 0 < 0))]
  exact ⟨rfl, rfl⟩

/-- C10: freeing the same pointer twice is harmless: whatever the first
`o1heapFree` did, repeating it on the same pointer leaves the state
untouched and invokes no hooks, because the first call cleared the
fragment's `used` flag, which makes `audit` reject the pointer. -/
theorem free_is_idempotent (s : O1HeapInstance) (p : Nat) :
    o1heapFree (o1heapFree s p).1 p = ((o1heapFree s p).1, []) := by
  by_cases hg : audit s p = true ∧ p ≠ 0
  · have hu := o1heapFree_used_false s p hg.1 hg.2
    have ha : audit (o1heapFree s p).1 p = false :=
      audit_false_of_used_false _ _ hg.2 hu
    exact o1heapFree_of_guard_false _ _ (by simp [ha])
  · have he := o1heapFree_of_guard_false s p hg
    rw [he]
    exact o1heapFree_of_guard_false s p hg

/-- C5: whenever `o1heapAllocate` returns `NULL`, the resulting state agrees
with the initial state on everything — memory, bins, mask, capacity,
`allocated`, `peak_allocated` — except possibly `peak_request_size` and
`oom_count`. -/
theorem allocate_failure_is_atomic (s : O1HeapInstance) (amount : Nat)
    (h : (o1heapAllocate s amount).out = none) :
    ∃ pr oc, (o1heapAllocate s amount).state =
      { s with diagnostics := { s.diagnostics with
          peak_request_size := pr, oom_count := oc } } := by
  rcases o1heapAllocate_shape s amount with ⟨t, ptr, heq, _, _⟩ | heq
  · rw [heq] at h
    simp [allocFinish] at h
  · rw [heq]
    exact allocFinish_state s amount none

/-- Witness for C5 at a concrete input: on the fresh capacity-96 heap a
request of 1000 bytes fails, and the theorem applies. -/
theorem allocate_failure_is_atomic_witness :
    (o1heapAllocate heap96 1000).out = none ∧
    (∃ pr oc, (o1heapAllocate heap96 1000).state =
      { heap96 with diagnostics := { heap96.diagnostics with
          peak_request_size := pr, oom_count := oc } }) :=
  ⟨by decide, allocate_failure_is_atomic heap96 1000 (by decide)⟩

/-- C8 (amended): with both hooks supplied, every `o1heapAllocate` call
invokes `critical_section_enter` exactly once and then
`critical_section_leave` exactly once; `o1heapFree` does the same when the
pointer is non-null and passes the validity check, and invokes neither hook
otherwise (null pointer, or pointer rejected by `audit`). -/
theorem hook_invocation_discipline (s : O1HeapInstance) (amount p : Nat)
    (he : s.critical_section_enter = true) (hl : s.critical_section_leave = true) :
    (o1heapAllocate s amount).events = [HookEv.enter, HookEv.leave] ∧
    (o1heapFree s p).2 =
      (if audit s p = true ∧ p ≠ 0 then [HookEv.enter, HookEv.leave] else []) := by
  constructor
  · rcases o1heapAllocate_shape s amount with ⟨t, ptr, heq, hte, htl⟩ | heq
    · rw [heq]
      simp [allocFinish, he, hl, hte, htl]
    · rw [heq]
      simp [allocFinish, he, hl]
  · rw [o1heapFree_events]
    by_cases hcond : audit s p = true ∧ p ≠ 0
    · rw [if_pos hcond, if_pos hcond]
      simp [he, hl]
    · rw [if_neg hcond, if_neg hcond]

/-- Witness for C8 (amended) at a concrete input: the hook-carrying
capacity-96 heap, a successful allocation and a null free. -/
theorem hook_invocation_discipline_witness :
    (heap96h.critical_section_enter = true ∧ heap96h.critical_section_leave = true) ∧
    ((o1heapAllocate heap96h 16).events = [HookEv.enter, HookEv.leave] ∧
      (o1heapFree heap96h 0).2 =
        (if audit heap96h 0 = true ∧ (0 : Nat) ≠ 0 then [HookEv.enter, HookEv.leave] else [])) :=
  ⟨⟨by decide, by decide⟩, hook_invocation_discipline heap96h 16 0 (by decide) (by decide)⟩

/-- C8 counterexample: the claim demands exactly one enter/leave invocation
for *every* free call including `free(NULL)`, but on a heap with both hooks
supplied, `o1heapFree _ 0` performs no hook invocation at all (the source
skips the critical section entirely for a null or rejected pointer). -/
theorem free_null_invokes_no_hooks :
    heap96h.critical_section_enter = true ∧
    heap96h.critical_section_leave = true ∧
    o1heapFree heap96h 0 = (heap96h, []) := by decide

/-- C6: under the guard `amount ≤ capacity - ALIGNMENT` (with
`ALIGNMENT ≤ capacity ≤ FRAGMENT_SIZE_MAX`), the size computation of
`o1heapAllocate` is overflow-free: `amount + ALIGNMENT` does not wrap, the
shift exponent `log2Ceil (amount + ALIGNMENT)` stays below the word width 32
(so `pow2` needs no truncation and stays within `FRAGMENT_SIZE_MAX`), and the
three boundary requests `SIZE_MAX`, `SIZE_MAX/2`, `SIZE_MAX/2 + 1` all
return `NULL`. -/
theorem allocate_no_overflow (s : O1HeapInstance) (amount : Nat)
    (hcap : s.diagnostics.capacity ≤ FRAGMENT_SIZE_MAX)
    (halign : O1HEAP_ALIGNMENT ≤ s.diagnostics.capacity)
    (hamt : amount ≤ sub32 s.diagnostics.capacity O1HEAP_ALIGNMENT) :
    add32 amount O1HEAP_ALIGNMENT = amount + O1HEAP_ALIGNMENT ∧
    log2Ceil (amount + O1HEAP_ALIGNMENT) < 32 ∧
    fragmentSizeOf amount = 2 ^ log2Ceil (amount + O1HEAP_ALIGNMENT) ∧
    fragmentSizeOf amount ≤ FRAGMENT_SIZE_MAX ∧
    (o1heapAllocate s (MOD32 - 1)).out = none ∧
    (o1heapAllocate s ((MOD32 - 1) / 2)).out = none ∧
    (o1heapAllocate s ((MOD32 - 1) / 2 + 1)).out = none := by
  have hM : MOD32 = 4294967296 := by decide
  have hF : FRAGMENT_SIZE_MAX = 2147483648 := by decide
  have hA : O1HEAP_ALIGNMENT = 16 := rfl
  have hcapw : s.diagnostics.capacity < MOD32 := by omega
  have hsub : sub32 s.diagnostics.capacity O1HEAP_ALIGNMENT =
      s.diagnostics.capacity - O1HEAP_ALIGNMENT := sub32_of_le halign hcapw
  rw [hsub] at hamt
  have hb : amount + O1HEAP_ALIGNMENT ≤ 2 ^ 31 := by
    have h31 : (2 : Nat) ^ 31 = 2147483648 := by norm_num
    omega
  have h1 : add32 amount O1HEAP_ALIGNMENT = amount + O1HEAP_ALIGNMENT := by
    apply add32_of_lt
    have h31 : (2 : Nat) ^ 31 = 2147483648 := by norm_num
    omega
  have h2 : log2Ceil (amount + O1HEAP_ALIGNMENT) ≤ 31 := log2Ceil_le_31 hb
  have hfail : ∀ x : Nat, s.diagnostics.capacity - O1HEAP_ALIGNMENT < x →
      (o1heapAllocate s x).out = none := by
    intro x hx
    rw [o1heapAllocate_out, if_neg]
    rw [hsub]
    omega
  refine ⟨h1, by omega, ?_, ?_, ?_, ?_, ?_⟩
  · unfold fragmentSizeOf
    rw [h1]
    exact pow2_eq (by omega)
  · unfold fragmentSizeOf
    rw [h1, pow2_eq (by omega)]
    unfold FRAGMENT_SIZE_MAX
    exact Nat.pow_le_pow_right (by omega) h2
  · exact hfail _ (by omega)
  · exact hfail _ (by omega)
  · exact hfail _ (by omega)

/-- Witness for C6 at a concrete input: the fresh capacity-96 heap and
request 80 = capacity − ALIGNMENT. -/
theorem allocate_no_overflow_witness :
    (heap96.diagnostics.capacity ≤ FRAGMENT_SIZE_MAX ∧
      O1HEAP_ALIGNMENT ≤ heap96.diagnostics.capacity ∧
      80 ≤ sub32 heap96.diagnostics.capacity O1HEAP_ALIGNMENT) ∧
    (add32 80 O1HEAP_ALIGNMENT = 80 + O1HEAP_ALIGNMENT ∧
      log2Ceil (80 + O1HEAP_ALIGNMENT) < 32 ∧
      fragmentSizeOf 80 = 2 ^ log2Ceil (80 + O1HEAP_ALIGNMENT) ∧
      fragmentSizeOf 80 ≤ FRAGMENT_SIZE_MAX ∧
      (o1heapAllocate heap96 (MOD32 - 1)).out = none ∧
      (o1heapAllocate heap96 ((MOD32 - 1) / 2)).out = none ∧
      (o1heapAllocate heap96 ((MOD32 - 1) / 2 + 1)).out = none) :=
  ⟨⟨by decide, by decide, by decide⟩,
    allocate_no_overflow heap96 80 (by decide) (by decide) (by decide)⟩

/-- C1 counterexample (code bug): on the heap initialized by
`o1heapInit 16 296` (capacity 96, root fragment at 192), two successful
allocations return the pointers 208 and 272; pointer 272 is live and was
never freed, yet `audit` rejects it — because the source compares
`frag->header.prev == frag` instead of checking the left sibling's
interlinking — and `o1heapFree` on it degrades into the no-op path. -/
theorem audit_rejects_live_pointer :
    o1heapInit 16 296 false false = some heap96 ∧
    (o1heapAllocate heap96 16).out = some 208 ∧
    (o1heapAllocate (o1heapAllocate heap96 16).state 16).out = some 272 ∧
    audit heap96b 272 = false ∧
    o1heapFree heap96b 272 = (heap96b, []) := by decide

/-- C2 counterexample (code bug): allocating 16 bytes from the fresh
capacity-96 heap chooses the root fragment `F` at 192 with size 96 and
computes `fragment_size = 32`, `leftover = 64`.  The claim places the free
remainder at `F + fragment_size = 224`; the source instead writes it at
`F + leftover = 256`, so the fragment spliced after `F` sits at 256 with
size 64 and nothing at all was written at 224. -/
theorem split_remainder_misplaced :
    fragmentSizeOf 16 = 32 ∧
    (readFrag heap96.mem 192).header.size = 96 ∧
    (o1heapAllocate heap96 16).out = some 208 ∧
    (readFrag (o1heapAllocate heap96 16).state.mem 192).header.next = 256 ∧
    (readFrag (o1heapAllocate heap96 16).state.mem 256).header.size = 64 ∧
    (readFrag (o1heapAllocate heap96 16).state.mem 256).header.used = false ∧
    (readFrag (o1heapAllocate heap96 16).state.mem 256).header.prev = 192 ∧
    readFrag (o1heapAllocate heap96 16).state.mem 224 = Fragment.null ∧
    192 + 64 = 256 ∧ 192 + 32 = 224 := by decide

/-- C3 counterexample (code bug): `heap96b` is reachable (two allocations
after init).  From it, `allocate 16` succeeds returning pointer 304;
`free 304` immediately afterwards is silently rejected by the broken audit
check (state unchanged, no hooks), after which `allocate 16` returns `NULL`
instead of succeeding again. -/
theorem alloc_free_alloc_does_not_roundtrip :
    o1heapInit 16 296 false false = some heap96 ∧
    (o1heapAllocate heap96 16).out = some 208 ∧
    (o1heapAllocate (o1heapAllocate heap96 16).state 16).out = some 272 ∧
    (o1heapAllocate heap96b 16).out = some 304 ∧
    o1heapFree (o1heapAllocate heap96b 16).state 304 =
      ((o1heapAllocate heap96b 16).state, []) ∧
    (o1heapAllocate (o1heapFree (o1heapAllocate heap96b 16).state 304).1 16).out = none := by
  decide

/-- C4 counterexample (code bug): the displaced split remainder collides with
a live fragment.  On the heap initialized by `o1heapInit 16 496`
(capacity 320, root at 192), the recorded eight-step sequence of valid
operations — every freed pointer was returned by the immediately preceding
matching allocation and not freed twice — ends in a state whose physical
list chains 192 → 256 → 320 → 416 → 448 → 256, where fragment 448
(free, size 32) is physically adjacent to fragment 256 (free, size 64):
two adjacent fragments are both free, so coalescing is not maximal. -/
theorem adjacent_free_fragments_reachable :
    o1heapInit 16 496 false false = some heap320 ∧
    (c4s1.out = some 208 ∧ c4s2.out = some 272 ∧ c4s4.out = some 208 ∧
      c4s5.out = some 336 ∧ c4s6.out = some 432 ∧ c4s8.out = some 208) ∧
    ((readFrag c4s3.1.mem 192).header.used = false ∧
      (readFrag c4s7.1.mem 192).header.used = false) ∧
    ((readFrag c4s8.state.mem 192).header.next = 256 ∧
      (readFrag c4s8.state.mem 256).header.next = 320 ∧
      (readFrag c4s8.state.mem 320).header.next = 416 ∧
      (readFrag c4s8.state.mem 416).header.next = 448 ∧
      (readFrag c4s8.state.mem 448).header.next = 256 ∧
      (readFrag c4s8.state.mem 448).header.prev = 416 ∧
      (readFrag c4s8.state.mem 256).header.prev = 192) ∧
    (readFrag c4s8.state.mem 448).header.used = false ∧
    (readFrag c4s8.state.mem 256).header.used = false ∧
    (readFrag c4s8.state.mem 448).header.size = 32 ∧
    (readFrag c4s8.state.mem 256).header.size = 64 := by decide

/-- C7 counterexample: the fresh heap produced by `o1heapInit 16 296` has
capacity 96, which is not a power of two; there `allocate(capacity −
ALIGNMENT) = allocate(80)` rounds the fragment size up to 128, finds no
suitable bin and returns `NULL`, contradicting the claim that it succeeds on
every freshly initialized heap. -/
theorem whole_capacity_alloc_fails_on_96 :
    o1heapInit 16 296 false false = some heap96 ∧
    heap96.diagnostics.capacity = 96 ∧
    (o1heapAllocate heap96 (96 - O1HEAP_ALIGNMENT)).out = none := by decide

/-- C7 (amended): on a freshly initialized heap whose capacity is a power of
two `2^k` (`5 ≤ k ≤ 31`; `2^5 = FRAGMENT_SIZE_MIN` is the smallest capacity
`o1heapInit` can produce and `2^31 = FRAGMENT_SIZE_MAX` its clamp, so this
covers every reachable power-of-two capacity), `allocate(capacity −
ALIGNMENT)` succeeds, returning the root fragment's payload pointer; and on
every freshly initialized heap (any capacity between `FRAGMENT_SIZE_MIN` and
`FRAGMENT_SIZE_MAX`), `allocate(capacity − ALIGNMENT + 1)` fails. -/
theorem whole_capacity_alloc_pow2 (a f : Nat) (e l : Bool) (k cap : Nat)
    (hk5 : 5 ≤ k) (hk31 : k ≤ 31)
    (hc1 : FRAGMENT_SIZE_MIN ≤ cap) (hc2 : cap ≤ FRAGMENT_SIZE_MAX) :
    (o1heapAllocate (initColdState a f (2 ^ k) e l) (2 ^ k - O1HEAP_ALIGNMENT)).out
        = some (add32 f O1HEAP_ALIGNMENT) ∧
    (o1heapAllocate (initColdState a f cap e l) (cap - O1HEAP_ALIGNMENT + 1)).out = none := by
  have hA : O1HEAP_ALIGNMENT = 16 := rfl
  have h16k : (16 : Nat) ≤ 2 ^ k :=
    le_trans (by norm_num) (Nat.pow_le_pow_right (by norm_num) (by omega : 4 ≤ k))
  have h32k : (32 : Nat) ≤ 2 ^ k :=
    le_trans (by norm_num) (Nat.pow_le_pow_right (by norm_num) hk5)
  have hkW : (2 : Nat) ^ k < MOD32 := by
    unfold MOD32
    exact Nat.pow_lt_pow_right (by norm_num) (by omega)
  have hj5 : k - 5 < 32 := by omega
  constructor
  · rw [o1heapAllocate_out]
    have hcap : (initColdState a f (2 ^ k) e l).diagnostics.capacity = 2 ^ k := rfl
    have hsub : sub32 (2 ^ k) O1HEAP_ALIGNMENT = 2 ^ k - 16 := by
      rw [hA]
      exact sub32_of_le h16k hkW
    have hguard : 0 < 2 ^ k - O1HEAP_ALIGNMENT ∧
        2 ^ k - O1HEAP_ALIGNMENT ≤
          sub32 (initColdState a f (2 ^ k) e l).diagnostics.capacity O1HEAP_ALIGNMENT := by
      rw [hcap, hsub, hA]
      omega
    rw [if_pos hguard]
    have hdiv : 2 ^ k / FRAGMENT_SIZE_MIN = 2 ^ (k - 5) := by
      have h5 : FRAGMENT_SIZE_MIN = 2 ^ 5 := rfl
      rw [h5, Nat.pow_div (by omega) (by norm_num)]
    have hadd : add32 (2 ^ k - O1HEAP_ALIGNMENT) O1HEAP_ALIGNMENT = 2 ^ k := by
      rw [hA]
      unfold add32
      rw [Nat.sub_add_cancel h16k]
      exact Nat.mod_eq_of_lt hkW
    have hfs : fragmentSizeOf (2 ^ k - O1HEAP_ALIGNMENT) = 2 ^ k := by
      unfold fragmentSizeOf
      rw [hadd, log2Ceil_pow (by omega), pow2_eq (by omega)]
    have hopt : optimalBinIndex (2 ^ k - O1HEAP_ALIGNMENT) = k - 5 := by
      unfold optimalBinIndex
      rw [hfs, hdiv, log2Ceil_pow hj5]
    have hcand : candidateBinMask (2 ^ k - O1HEAP_ALIGNMENT) = 2 ^ 32 - 2 ^ (k - 5) := by
      unfold candidateBinMask
      rw [hopt, pow2_eq hj5, sub32_one_pow hj5, not32_pow_sub_one hj5]
    have hmask : (initColdState a f (2 ^ k) e l).nonempty_bin_mask = 2 ^ (k - 5) := by
      rw [initColdState_mask, hdiv, log2Floor_pow (by omega), pow2_eq hj5]
    have hsuit : suitableBins (initColdState a f (2 ^ k) e l) (2 ^ k - O1HEAP_ALIGNMENT)
        = 2 ^ (k - 5) := by
      unfold suitableBins
      rw [hmask, hcand]
      exact land_two_pow_of_testBit (testBit_pow_sub_pow hj5)
    have hsmall : smallestBinMask (initColdState a f (2 ^ k) e l) (2 ^ k - O1HEAP_ALIGNMENT)
        = 2 ^ (k - 5) := by
      unfold smallestBinMask
      rw [hsuit, sub32_one_pow hj5, not32_pow_sub_one hj5]
      exact land_two_pow_of_testBit (testBit_pow_sub_pow hj5)
    rw [hsmall, if_pos (Nat.pos_pow_of_pos (k - 5) (by norm_num)).ne']
    rw [log2Floor_pow (by omega), initColdState_bins, hdiv, log2Floor_pow (by omega)]
    rw [getBin_set_self _ _ _ (by simpa [NUM_BINS_MAX] using by omega : k - 5 < (List.replicate NUM_BINS_MAX (0 : Nat)).length)]
  · rw [o1heapAllocate_out]
    have hcapc : (initColdState a f cap e l).diagnostics.capacity = cap := rfl
    have hcw : cap < MOD32 := by
      have h1 : FRAGMENT_SIZE_MAX = 2147483648 := by decide
      have h2 : MOD32 = 4294967296 := by decide
      omega
    have hsubc : sub32 cap 16 = cap - 16 := by
      refine sub32_of_le ?_ hcw
      have h1 : FRAGMENT_SIZE_MIN = 32 := rfl
      omega
    have hno : ¬(0 < cap - O1HEAP_ALIGNMENT + 1 ∧
        cap - O1HEAP_ALIGNMENT + 1 ≤
          sub32 (initColdState a f cap e l).diagnostics.capacity O1HEAP_ALIGNMENT) := by
      rw [hcapc, hA, hsubc]
      omega
    rw [if_neg hno]

/-- Witness for C7 (amended) at a concrete input: `k = 5` — the smallest
reachable power-of-two capacity `32`, produced for example by
`o1heapInit 16 232` — for the success half, capacity 96 for the failure
half. -/
theorem whole_capacity_alloc_pow2_witness :
    ((5 : Nat) ≤ 5 ∧ (5 : Nat) ≤ 31 ∧ FRAGMENT_SIZE_MIN ≤ 96 ∧ (96 : Nat) ≤ FRAGMENT_SIZE_MAX ∧
      o1heapInit 16 232 false false = some (initColdState 16 192 (2 ^ 5) false false)) ∧
    ((o1heapAllocate (initColdState 16 192 (2 ^ 5) false false) (2 ^ 5 - O1HEAP_ALIGNMENT)).out
        = some (add32 192 O1HEAP_ALIGNMENT) ∧
      (o1heapAllocate (initColdState 16 192 96 false false) (96 - O1HEAP_ALIGNMENT + 1)).out
        = none) :=
  ⟨⟨by decide, by decide, by decide, by decide, by decide⟩,
    whole_capacity_alloc_pow2 16 192 false false 5 96 (by decide) (by decide) (by decide) (by decide)⟩

end O1heap
